import Mathlib

/-!
Verification of the client-side request/response and UI-state contract of the
QuantumEncryptx360 frontend (React single-page application).

The shallow embedding below translates, from the JavaScript source:
  * the per-pipeline process-status records and the `INITIAL_PROCESS_STATUS`
    constant (App component);
  * the `resetStatus` reset policy (App component);
  * the `postFormJson` request helper and the form builders of `api.js`;
  * the three pipeline handlers `handleGenerateKey`, `handleEncrypt`,
    `handleDecryptPreview` - in both variants present in the source: the
    direct-`fetch` variant and the `api.js`-helper variant - as traces of
    state-update events, replayed over an explicit application state;
  * the `VITE_API_URL` normalization of `config.js`;
  * the headline-status derivation `getConnectionStatus` / `getTopMessage`
    of the Visualizer component;
  * the control-gating data flow (`isSessionReady` / `isEncryptReady`,
    `AnimatedCard`'s pointer-events blocking, and the button disabled flags).

Stateful React `setX` calls are modelled as first-order events; a handler is a
function from its inputs and the fetch outcome to the list of events it emits,
and `replay` folds the events over an `AppState`.  HTTP responses are modelled
as a status code together with the outcome of `JSON.parse` on the body (an
optional flat object holding the fields the client reads) and the raw body
text; `JSON.parse` failure is the `none` case, with the exception's message
carried alongside.
-/

/-- The five status values a pipeline's record can take
(`idle | loading | success | error | eavesdropper`). -/
inductive Status
  | idle
  | loading
  | success
  | error
  | eavesdropper
deriving DecidableEq, Repr

/-- Statuses that end an in-flight operation (everything except
`idle`/`loading`). -/
def Status.isTerminal : Status → Bool
  | .success => true
  | .error => true
  | .eavesdropper => true
  | _ => false

/-- One pipeline's record, mirroring the JS object
`\x7b status, type, message \x7d` (the source always sets `type` equal to
`status`, but both fields exist). -/
structure ProcStatus where
  status : Status
  type : Status
  message : String
deriving DecidableEq, Repr

/-- The three status-tracked pipelines. -/
inductive Pipeline
  | session
  | encrypt
  | decrypt
deriving DecidableEq, Repr

/-- The `processStatus` object of the App component: one record per
pipeline. -/
structure ProcessStatus where
  session : ProcStatus
  encrypt : ProcStatus
  decrypt : ProcStatus
deriving DecidableEq, Repr

def ProcessStatus.get (ps : ProcessStatus) : Pipeline → ProcStatus
  | .session => ps.session
  | .encrypt => ps.encrypt
  | .decrypt => ps.decrypt

def ProcessStatus.set (ps : ProcessStatus) : Pipeline → ProcStatus → ProcessStatus
  | .session, r => { ps with session := r }
  | .encrypt, r => { ps with encrypt := r }
  | .decrypt, r => { ps with decrypt := r }

/-- Constant `INITIAL_PROCESS_STATUS` from the App component. -/
def INITIAL_PROCESS_STATUS : ProcessStatus :=
  { session := ⟨.idle, .idle, "Waiting for key generation..."⟩
  , encrypt := ⟨.idle, .idle, "Waiting for file..."⟩
  , decrypt := ⟨.idle, .idle, "Waiting for components..."⟩ }

/-- The `\x7b nonce, tag, ciphertext \x7d` triple produced by encryption. -/
structure CryptoComponents where
  nonce : String
  tag : String
  ciphertext : String
deriving DecidableEq, Repr

/-- The App component's state slots relevant to the contract:
`processStatus`, `cryptoComponents`, `decryptedPreview`, `isLoading`. -/
structure AppState where
  processStatus : ProcessStatus
  cryptoComponents : CryptoComponents
  decryptedPreview : String
  isLoading : Bool
deriving DecidableEq, Repr

def initialAppState : AppState :=
  { processStatus := INITIAL_PROCESS_STATUS
  , cryptoComponents := ⟨"", "", ""⟩
  , decryptedPreview := ""
  , isLoading := false }

/-- The pure next-`processStatus` function inside `resetStatus`
(the updater passed to `setProcessStatus`): start from the initial records,
preserve a success marker on `session` unless the session pipeline itself is
restarting, preserve a success marker on `encrypt` unless session or encrypt
is restarting, and override everything back to the initial records when the
session pipeline is restarting. -/
def resetStatusFn (currentProcess : String) (prev : ProcessStatus) : ProcessStatus :=
  let n1 := INITIAL_PROCESS_STATUS
  let n2 :=
    if currentProcess ≠ "session" ∧ prev.session.status = .success then
      { n1 with session := ⟨.success, .success, "Session active"⟩ }
    else n1
  let n3 :=
    if currentProcess ≠ "session" ∧ currentProcess ≠ "encrypt" ∧
        prev.encrypt.status = .success then
      { n2 with encrypt := ⟨.success, .success, "Encryption complete"⟩ }
    else n2
  if currentProcess = "session" then INITIAL_PROCESS_STATUS else n3

/-- A flat JSON object restricted to the fields the client ever reads
(`detail`, `plaintext`, `nonce`, `tag`, `ciphertext`); a missing field is
`none` (JS `undefined`). -/
structure JsonObj where
  detail : Option String
  plaintext : Option String
  nonce : Option String
  tag : Option String
  ciphertext : Option String
deriving DecidableEq, Repr

/-- The empty JSON object `\x7b\x7d`. -/
def JsonObj.empty : JsonObj := ⟨none, none, none, none, none⟩

/-- An HTTP response: status code, the result of `JSON.parse` on the body
(`none` when parsing throws), the raw body text, and the message of the
exception `JSON.parse` would throw when it fails. -/
structure HttpResponse where
  status : Nat
  json : Option JsonObj
  text : String
  jsonErrorMessage : String
deriving DecidableEq, Repr

/-- Property `Response.ok`: status in the 2xx range. -/
def HttpResponse.ok (r : HttpResponse) : Bool :=
  200 ≤ r.status && r.status < 300

/-- Outcome of a `fetch` call: a response, or a rejected promise
(network failure) carrying the `TypeError`'s message. -/
inductive FetchOutcome
  | response (r : HttpResponse)
  | networkError (message : String)
deriving DecidableEq, Repr

/-- Models JS `v || fallback` for a string field that may be absent:
`undefined` and the empty string are falsy. -/
def orDefault (v : Option String) (fallback : String) : String :=
  match v with
  | some s => if s = "" then fallback else s
  | none => fallback

/-- Keeps an optional string only when it is JS-truthy (present and
non-empty). -/
def truthyStr (o : Option String) : Option String :=
  match o with
  | some s => if s = "" then none else some s
  | none => none

/-! ## State-update events and replay

Each React `setX` call made by a handler becomes one first-order event; a
handler is the list of events it emits, in source order.  `request` marks the
point where the HTTP request leaves the client and records the endpoint path
and the form fields appended to the `FormData`. -/

inductive Event
  | setProcessStatus (ps : ProcessStatus)
  | setPipeline (p : Pipeline) (r : ProcStatus)
  | resetPipelines (currentProcess : String)
  | setPreview (s : String)
  | setComponents (c : CryptoComponents)
  | setLoadingFlag (b : Bool)
  | request (endpoint : String) (form : List (String × String))
deriving DecidableEq, Repr

def Event.isRequest : Event → Bool
  | .request _ _ => true
  | _ => false

def applyEvent (st : AppState) : Event → AppState
  | .setProcessStatus ps => { st with processStatus := ps }
  | .setPipeline p r => { st with processStatus := st.processStatus.set p r }
  | .resetPipelines cp =>
      { st with processStatus := resetStatusFn cp st.processStatus }
  | .setPreview s => { st with decryptedPreview := s }
  | .setComponents c => { st with cryptoComponents := c }
  | .setLoadingFlag b => { st with isLoading := b }
  | .request _ _ => st

def replay (st : AppState) (evs : List Event) : AppState :=
  evs.foldl applyEvent st

/-- The two state updates performed by the `resetStatus` function itself:
clear the decrypted preview, then apply the reset policy to the pipeline
records. -/
def resetStatusEvents (currentProcess : String) : List Event :=
  [.setPreview "", .resetPipelines currentProcess]

/-- The form fields of every request event in a trace, in order. -/
def requestForms (evs : List Event) : List (List (String × String)) :=
  evs.filterMap fun e =>
    match e with
    | .request _ f => some f
    | _ => none

/-! ## Request layer (`api.js`) -/

/-- Form built by `initiateSession` (and by the direct-`fetch`
`handleGenerateKey`, which stringifies the boolean identically). -/
def sessionForm (user_id peer_id : String) (simulate_eavesdropper : Bool) :
    List (String × String) :=
  [("user_id", user_id), ("peer_id", peer_id),
   ("simulate_eavesdropper", if simulate_eavesdropper then "true" else "false")]

/-- Form built by `encryptFile` (the binary file is represented by its
name). -/
def encryptForm (user_id peer_id fileName : String) : List (String × String) :=
  [("user_id", user_id), ("peer_id", peer_id), ("file", fileName)]

/-- Form built by `decryptFilePreview` and `decryptFileDownload` (and by the
direct-`fetch` `handleDecryptPreview`, which appends the same five fields in
the same order). -/
def decryptForm (user_id peer_id nonce tag ciphertext : String) :
    List (String × String) :=
  [("user_id", user_id), ("peer_id", peer_id),
   ("nonce", nonce), ("tag", tag), ("ciphertext", ciphertext)]

/-- What `postFormJson` hands back to its caller: the parsed JSON, the raw
text (when the body was not valid JSON), or a thrown error object.  The
fields of the thrown object are all optional, mirroring the duck-typed
probing (`err.status`, `err.body`, `err.text`, `err.message`) done at the
call sites. -/
structure ErrObj where
  statusF : Option Nat
  bodyF : Option JsonObj
  textF : Option String
  messageF : Option String
deriving DecidableEq, Repr

inductive ApiResult
  | ok (json : JsonObj)
  | okText (text : String)
  | thrown (e : ErrObj)
deriving DecidableEq, Repr

/-- Helper `postFormJson` from `api.js`, given the response it processes.
`text ? JSON.parse(text) : \x7b\x7d` parses the body only when non-empty.
Note the control flow of the source: the `throw (status, body, text)` that
sits inside the `try` block is caught by the function's own `catch`, which -
since `res.ok` is still false there - rethrows `(status, text)` WITHOUT the
parsed `body` field.  A non-2xx response therefore always surfaces as
`(status, text)`, never carrying `body` or `message`. -/
def postFormJson (r : HttpResponse) : ApiResult :=
  let text := r.text
  let parsed : Option JsonObj := if text = "" then some JsonObj.empty else r.json
  match parsed with
  | some _ =>
      if r.ok then ApiResult.ok (parsed.getD JsonObj.empty)
      else ApiResult.thrown ⟨some r.status, none, some text, none⟩
  | none =>
      if r.ok then ApiResult.okText text
      else ApiResult.thrown ⟨some r.status, none, some text, none⟩

/-- An `api.js` operation as observed by a handler: a network failure
rejects with a `TypeError` (only a `message` field); otherwise the response
goes through `postFormJson`. -/
def apiCall (outcome : FetchOutcome) : ApiResult :=
  match outcome with
  | .networkError m => ApiResult.thrown ⟨none, none, none, some m⟩
  | .response r => postFormJson r

/-- The duck-typed error-message probe shared by the helper-based handlers:
`err.body && err.body.detail`, else `err.text`, else `err.message`, else the
per-operation fallback. -/
def duckMessage (fallback : String) (e : ErrObj) : String :=
  match truthyStr (e.bodyF.bind JsonObj.detail) with
  | some d => d
  | none =>
      match truthyStr e.textF with
      | some t => t
      | none =>
          match truthyStr e.messageF with
          | some m => m
          | none => fallback

/-- The 403 branch of the helper-based `handleGenerateKey`:
`(err.body && err.body.detail) || 'Attack detected. Session terminated.'`. -/
def eavesdropperMessage (e : ErrObj) : String :=
  match truthyStr (e.bodyF.bind JsonObj.detail) with
  | some d => d
  | none => "Attack detected. Session terminated."

/-! ## Pipeline handlers, direct-`fetch` variant of the App component -/

def sessionLoadingRec : ProcStatus :=
  ⟨.loading, .loading, "Establishing secure session... (QKD running)"⟩

def sameUserEvents : List Event :=
  [.setProcessStatus
     { INITIAL_PROCESS_STATUS with
       session := ⟨.error, .error, "User and Peer cannot be the same."⟩ },
   .setPreview ""]

/-- Handler `handleGenerateKey`, direct-`fetch` variant.  The same-identity check
returns before `setIsLoading`/`resetStatus`/`fetch`.  On a non-2xx response
a 403 selects the eavesdropper status with fallback message
`'Attack detected. Session terminated.'`, any other status the error status
with fallback `Request failed: [status]`; in both branches
`errorData.detail || detailMessage` upgrades to the parsed `detail` field
when it is truthy and the body parses.  A network failure - or a 2xx body
that fails to parse, since `response.json()` then throws into the same
`catch` - yields the fixed network-error message. -/
def handleGenerateKey (currentUser peerUser : String) (sim : Bool)
    (outcome : FetchOutcome) : List Event :=
  if currentUser = peerUser then sameUserEvents
  else
    [.setLoadingFlag true] ++ resetStatusEvents "session" ++
    [.setPipeline .session sessionLoadingRec,
     .request "/api/v1/session/initiate" (sessionForm currentUser peerUser sim)] ++
    (match outcome with
     | .networkError _ =>
         [.setProcessStatus
            { INITIAL_PROCESS_STATUS with
              session := ⟨.error, .error,
                "Network error: Could not connect to server."⟩ },
          .setPreview ""]
     | .response r =>
         if r.ok then
           match r.json with
           | some _ =>
               [.setProcessStatus
                  { INITIAL_PROCESS_STATUS with
                    session := ⟨.success, .success, "Secure session established!"⟩ }]
           | none =>
               [.setProcessStatus
                  { INITIAL_PROCESS_STATUS with
                    session := ⟨.error, .error,
                      "Network error: Could not connect to server."⟩ },
                .setPreview ""]
         else
           let fallback :=
             if r.status = 403 then "Attack detected. Session terminated."
             else "Request failed: " ++ toString r.status
           let msg :=
             match r.json with
             | some j => orDefault j.detail fallback
             | none => fallback
           let s := if r.status = 403 then Status.eavesdropper else Status.error
           [.setProcessStatus
              { INITIAL_PROCESS_STATUS with session := ⟨s, s, msg⟩ },
            .setPreview ""]) ++
    [.setLoadingFlag false]

def encryptLoadingRec : ProcStatus := ⟨.loading, .loading, "Encrypting file..."⟩

/-- Handler `handleEncrypt`, direct-`fetch` variant.  A non-2xx response throws
`Error(errorData.detail || 'Encryption failed: [status]')`; a 2xx body that
fails to parse throws the parse error; both land in the `catch`, which writes
the error message to the encrypt pipeline. -/
def handleEncrypt (currentUser peerUser fileName : String)
    (outcome : FetchOutcome) : List Event :=
  [.setLoadingFlag true] ++ resetStatusEvents "encrypt" ++
  [.setPipeline .encrypt encryptLoadingRec,
   .setComponents ⟨"", "", ""⟩,
   .request "/api/v1/encrypt-file" (encryptForm currentUser peerUser fileName)] ++
  (match outcome with
   | .networkError m => [.setPipeline .encrypt ⟨.error, .error, m⟩]
   | .response r =>
       if r.ok then
         match r.json with
         | some j =>
             [.setComponents ⟨j.nonce.getD "", j.tag.getD "", j.ciphertext.getD ""⟩,
              .setPipeline .encrypt
                ⟨.success, .success, "File encrypted. Components ready."⟩]
         | none => [.setPipeline .encrypt ⟨.error, .error, r.jsonErrorMessage⟩]
       else
         let fallback := "Encryption failed: " ++ toString r.status
         let msg :=
           match r.json with
           | some j => orDefault j.detail fallback
           | none => fallback
         [.setPipeline .encrypt ⟨.error, .error, msg⟩]) ++
  [.setLoadingFlag false]

def decryptLoadingRec : ProcStatus := ⟨.loading, .loading, "Decrypting preview..."⟩

/-- Handler `handleDecryptPreview`, direct-`fetch` variant.  On success the preview
is set to `data.plaintext` (empty when the field is absent); on any failure
the decrypt pipeline gets the error message and the preview is set to
`Error: ` followed by that message. -/
def handleDecryptPreview (currentUser peerUser : String)
    (components : CryptoComponents) (outcome : FetchOutcome) : List Event :=
  [.setLoadingFlag true] ++ resetStatusEvents "decrypt" ++
  [.setPipeline .decrypt decryptLoadingRec,
   .request "/api/v1/decrypt-file-preview"
     (decryptForm currentUser peerUser
       components.nonce components.tag components.ciphertext)] ++
  (match outcome with
   | .networkError m =>
       [.setPipeline .decrypt ⟨.error, .error, m⟩,
        .setPreview ("Error: " ++ m)]
   | .response r =>
       if r.ok then
         match r.json with
         | some j =>
             [.setPreview (j.plaintext.getD ""),
              .setPipeline .decrypt
                ⟨.success, .success, "Decryption preview successful."⟩]
         | none =>
             [.setPipeline .decrypt ⟨.error, .error, r.jsonErrorMessage⟩,
              .setPreview ("Error: " ++ r.jsonErrorMessage)]
       else
         let fallback := "Decryption failed: " ++ toString r.status
         let msg :=
           match r.json with
           | some j => orDefault j.detail fallback
           | none => fallback
         [.setPipeline .decrypt ⟨.error, .error, msg⟩,
          .setPreview ("Error: " ++ msg)]) ++
  [.setLoadingFlag false]

/-! ## Pipeline handlers, `api.js`-helper variant of the App component -/

/-- Handler `handleGenerateKey`, helper variant: `await initiateSession(...)`; a
thrown error object is probed for `status === 403` (eavesdropper) and
otherwise for `body.detail` / `text` / `message`, with fallback
`'Key establishment failed.'`. -/
def handleGenerateKeyApi (currentUser peerUser : String) (sim : Bool)
    (outcome : FetchOutcome) : List Event :=
  if currentUser = peerUser then sameUserEvents
  else
    [.setLoadingFlag true] ++ resetStatusEvents "session" ++
    [.setPipeline .session sessionLoadingRec,
     .request "/api/v1/session/initiate" (sessionForm currentUser peerUser sim)] ++
    (match apiCall outcome with
     | .ok _ =>
         [.setProcessStatus
            { INITIAL_PROCESS_STATUS with
              session := ⟨.success, .success, "Secure session established!"⟩ }]
     | .okText _ =>
         [.setProcessStatus
            { INITIAL_PROCESS_STATUS with
              session := ⟨.success, .success, "Secure session established!"⟩ }]
     | .thrown e =>
         let s := if e.statusF = some 403 then Status.eavesdropper else Status.error
         let msg :=
           if e.statusF = some 403 then eavesdropperMessage e
           else duckMessage "Key establishment failed." e
         [.setProcessStatus
            { INITIAL_PROCESS_STATUS with session := ⟨s, s, msg⟩ },
          .setPreview ""]) ++
    [.setLoadingFlag false]

/-- Handler `handleEncrypt`, helper variant. -/
def handleEncryptApi (currentUser peerUser fileName : String)
    (outcome : FetchOutcome) : List Event :=
  [.setLoadingFlag true] ++ resetStatusEvents "encrypt" ++
  [.setPipeline .encrypt encryptLoadingRec,
   .setComponents ⟨"", "", ""⟩,
   .request "/api/v1/encrypt-file" (encryptForm currentUser peerUser fileName)] ++
  (match apiCall outcome with
   | .ok j =>
       [.setComponents ⟨j.nonce.getD "", j.tag.getD "", j.ciphertext.getD ""⟩,
        .setPipeline .encrypt
          ⟨.success, .success, "File encrypted. Components ready."⟩]
   | .okText _ =>
       -- data is a raw string; data.nonce etc. are undefined
       [.setComponents ⟨"", "", ""⟩,
        .setPipeline .encrypt
          ⟨.success, .success, "File encrypted. Components ready."⟩]
   | .thrown e =>
       [.setPipeline .encrypt
          ⟨.error, .error, duckMessage "Encryption failed." e⟩]) ++
  [.setLoadingFlag false]

/-- Handler `handleDecryptPreview`, helper variant: forwards
`components.nonce/tag/ciphertext` to `decryptFilePreview`; on success sets
the preview to `data.plaintext || ''`; on failure writes the probed error
message to the decrypt pipeline and sets the preview to `Error: ` followed
by it. -/
def handleDecryptPreviewApi (currentUser peerUser : String)
    (components : CryptoComponents) (outcome : FetchOutcome) : List Event :=
  [.setLoadingFlag true] ++ resetStatusEvents "decrypt" ++
  [.setPipeline .decrypt decryptLoadingRec,
   .request "/api/v1/decrypt-file-preview"
     (decryptForm currentUser peerUser
       components.nonce components.tag components.ciphertext)] ++
  (match apiCall outcome with
   | .ok j =>
       [.setPreview (orDefault j.plaintext ""),
        .setPipeline .decrypt
          ⟨.success, .success, "Decryption preview successful."⟩]
   | .okText _ =>
       -- data is a raw string; data.plaintext is undefined, so the preview is ''
       [.setPreview "",
        .setPipeline .decrypt
          ⟨.success, .success, "Decryption preview successful."⟩]
   | .thrown e =>
       let msg := duckMessage "Decryption failed." e
       [.setPipeline .decrypt ⟨.error, .error, msg⟩,
        .setPreview ("Error: " ++ msg)]) ++
  [.setLoadingFlag false]

/-! ## Base-URL normalization (`config.js`)

`raw.replace(/\/+$/, "").replace(/\/api\/v1$/i, "")`: first strip all
trailing slashes, then strip one trailing `/api/v1` segment
case-insensitively. -/

/-- True when the string (as a character list) ends in the given
character. -/
def lastIs (c : Char) (l : List Char) : Bool :=
  match l.reverse.head? with
  | some d => d = c
  | none => false

/-- Step `replace(/\/+$/, "")`: remove every trailing `/`. -/
def dropTrailingSlashes (l : List Char) : List Char :=
  (l.reverse.dropWhile (fun c => c = '/')).reverse

/-- The match condition of `/\/api\/v1$/i`: the last seven characters,
lower-cased, are `/api/v1`. -/
def hasApiV1Suffix (l : List Char) : Bool :=
  decide (7 ≤ l.length) &&
    ((l.drop (l.length - 7)).map Char.toLower == "/api/v1".data)

/-- Step `replace(/\/api\/v1$/i, "")`. -/
def stripApiV1 (l : List Char) : List Char :=
  if hasApiV1Suffix l then l.take (l.length - 7) else l

/-- The whole `config.js` normalization of `VITE_API_URL`. -/
def normalizeApiUrl (s : String) : String :=
  String.mk (stripApiV1 (dropTrailingSlashes s.data))

/-! ## Headline status (Visualizer component) -/

/-- The record handed to `ConnectionVisual`: the source returns either one
of the three pipeline records or a fresh `(status, message)` literal, so
only these two fields are common to all branches. -/
structure Headline where
  status : Status
  message : String
deriving DecidableEq, Repr

/-- Function `getConnectionStatus` from the Visualizer: session eavesdropper first;
then the first error among decrypt, encrypt, session; then the first loading
among decrypt, encrypt, session; else the success/idle default. -/
def getConnectionStatus (p : ProcessStatus) : Headline :=
  if p.session.status = .eavesdropper then
    ⟨p.session.status, p.session.message⟩
  else
    let errorProcess : Option ProcStatus :=
      if p.decrypt.status = .error then some p.decrypt
      else if p.encrypt.status = .error then some p.encrypt
      else if p.session.status = .error then some p.session
      else none
    match errorProcess with
    | some ep => ⟨.error, ep.message⟩
    | none =>
        if p.decrypt.status = .loading then ⟨p.decrypt.status, p.decrypt.message⟩
        else if p.encrypt.status = .loading then ⟨p.encrypt.status, p.encrypt.message⟩
        else if p.session.status = .loading then ⟨p.session.status, p.session.message⟩
        else ⟨.success, "Secure Tunnel Active"⟩

/-- Function `getTopMessage` from the Visualizer: the same rank order, extended with
success messages, falling back to the session message. -/
def getTopMessage (p : ProcessStatus) : String :=
  if p.session.status = .eavesdropper then p.session.message
  else if p.decrypt.status = .error then p.decrypt.message
  else if p.encrypt.status = .error then p.encrypt.message
  else if p.session.status = .error then p.session.message
  else if p.decrypt.status = .loading then p.decrypt.message
  else if p.encrypt.status = .loading then p.encrypt.message
  else if p.session.status = .loading then p.session.message
  else if p.decrypt.status = .success then p.decrypt.message
  else if p.encrypt.status = .success then p.encrypt.message
  else if p.session.status = .success then p.session.message
  else p.session.message

/-! ## Gating layer

`App` computes `isSessionReady` / `isEncryptReady` and passes
`isDisabled=(not ready)` to the Encryptor / Decryptor cards.  `AnimatedCard`
adds the `pointer-events-none` class exactly when `isDisabled`, which blocks
pointer interaction with everything inside the card, including its buttons.
The `Button` component itself is disabled when its `disabled` prop or its
`isLoading` prop holds; the Encrypt button passes
`disabled=(no file selected or isLoading)`, the Preview and Download buttons
pass `disabled=isLoading`. -/

def isSessionReady (ps : ProcessStatus) : Bool := ps.session.status = .success

def isEncryptReady (ps : ProcessStatus) : Bool := ps.encrypt.status = .success

/-- Component `AnimatedCard`: pointer events are blocked iff `isDisabled`. -/
def cardBlocksPointer (isDisabled : Bool) : Bool := isDisabled

/-- Component `Button`: the rendered button is disabled when `disabled or isLoading`. -/
def buttonDisabled (disabled isLoading : Bool) : Bool := disabled || isLoading

/-- The encrypt operation can be started by pointer interaction: the
Encryptor card (gated on `not isSessionReady`) accepts pointer events and
the Encrypt button (gated on file selection and the loading flag) is
enabled.  `encStatusLoading` is the Encryptor's `status.status==='loading'`
term of its `isLoading` prop. -/
def canStartEncrypt (ps : ProcessStatus) (fileSelected isLoading : Bool) : Bool :=
  !cardBlocksPointer (!isSessionReady ps) &&
    !buttonDisabled (!fileSelected || isLoading)
      (isLoading && (ps.encrypt.status = .loading : Bool))

/-- The decrypt-preview operation can be started by pointer interaction. -/
def canStartDecryptPreview (ps : ProcessStatus) (isLoading : Bool) : Bool :=
  !cardBlocksPointer (!isEncryptReady ps) &&
    !buttonDisabled isLoading (isLoading && (ps.decrypt.status = .loading : Bool))

/-- The decrypt-download operation can be started by pointer interaction
(the Download button passes no `isLoading` prop, which defaults to
false). -/
def canStartDecryptDownload (ps : ProcessStatus) (isLoading : Bool) : Bool :=
  !cardBlocksPointer (!isEncryptReady ps) && !buttonDisabled isLoading false

/-! ## Temporal observations over event traces -/

/-- Holds when, at every `request` event of the trace, the replayed state at
that moment already shows pipeline `p` as loading. -/
def loadingAtRequests (p : Pipeline) : AppState → List Event → Bool
  | _, [] => true
  | st, e :: rest =>
      (!e.isRequest || ((st.processStatus.get p).status = .loading : Bool)) &&
        loadingAtRequests p (applyEvent st e) rest

/-- The events strictly after the first `request` event. -/
def afterRequest (evs : List Event) : List Event :=
  (evs.dropWhile (fun e => !e.isRequest)).tail

/-- Does the event write pipeline `p`'s record (directly, via a full
`processStatus` replacement, or via a reset)? -/
def writesPipeline (p : Pipeline) : Event → Bool
  | .setProcessStatus _ => true
  | .setPipeline q _ => q = p
  | .resetPipelines _ => true
  | _ => false

/-- Does the event leave pipeline `p` in a terminal state? -/
def writesTerminalTo (p : Pipeline) : Event → Bool
  | .setProcessStatus ps => (ps.get p).status.isTerminal
  | .setPipeline q r => (q = p : Bool) && r.status.isTerminal
  | _ => false

/-- After the request, exactly one event writes pipeline `p`, and that write
is to a terminal state. -/
def oneTerminalWriteAfterRequest (p : Pipeline) (evs : List Event) : Bool :=
  match (afterRequest evs).filter (writesPipeline p) with
  | [e] => writesTerminalTo p e
  | _ => false

/-! ## Concrete fixtures used by witnesses and counterexamples -/

/-- A process status with session and encrypt both successful. -/
def readyState : ProcessStatus :=
  { INITIAL_PROCESS_STATUS with
    session := ⟨.success, .success, "Secure session established!"⟩
  , encrypt := ⟨.success, .success, "File encrypted. Components ready."⟩ }

/-- A 403 session-initiation response whose body is the JSON object with
`detail` equal to `"Eve detected"` (the text field stands for the raw JSON
source; the handlers only inspect its non-emptiness). -/
def eveResponse : HttpResponse :=
  { status := 403
  , json := some { JsonObj.empty with detail := some "Eve detected" }
  , text := "raw 403 body"
  , jsonErrorMessage := "" }

/-- A 500 response with a non-JSON body. -/
def plainErrorResponse : HttpResponse :=
  { status := 500, json := none, text := "oops", jsonErrorMessage := "parse error" }

/-- A process status whose session pipeline is in the eavesdropper state. -/
def eavesState : ProcessStatus :=
  { INITIAL_PROCESS_STATUS with
    session := ⟨.eavesdropper, .eavesdropper, "Attack detected."⟩ }

/-! ## Claims -/

/-- C1: for every UI state, the encrypt operation can be started only when
the session pipeline's status is `success`, and the decrypt-preview and
download operations can be started only when the encrypt pipeline's status
is `success`: the gating layer (the cards' pointer-events blocking driven by
`isSessionReady` / `isEncryptReady`) disables the controls otherwise. -/
theorem gating_requires_success (ps : ProcessStatus) (fileSelected isLoading : Bool) :
    (canStartEncrypt ps fileSelected isLoading = true →
      ps.session.status = .success) ∧
    (canStartDecryptPreview ps isLoading = true →
      ps.encrypt.status = .success) ∧
    (canStartDecryptDownload ps isLoading = true →
      ps.encrypt.status = .success) := by
  refine ⟨fun h => ?_, fun h => ?_, fun h => ?_⟩ <;>
  · simp [canStartEncrypt, canStartDecryptPreview, canStartDecryptDownload,
      cardBlocksPointer, buttonDisabled, isSessionReady, isEncryptReady] at h
    tauto

theorem gating_requires_success_witness :
    (canStartEncrypt readyState true false = true ∧
      readyState.session.status = .success) ∧
    (canStartDecryptPreview readyState false = true ∧
      readyState.encrypt.status = .success) ∧
    (canStartDecryptDownload readyState false = true ∧
      readyState.encrypt.status = .success) :=
  ⟨⟨by decide, (gating_requires_success readyState true false).1 (by decide)⟩,
   ⟨by decide, (gating_requires_success readyState true false).2.1 (by decide)⟩,
   ⟨by decide, (gating_requires_success readyState true false).2.2 (by decide)⟩⟩

/-- C3: when `currentUser` equals `peerUser`, both variants of the
session-initiation handler emit no request at all and leave the session
pipeline in the error state with message
`"User and Peer cannot be the same."`, clearing the preview - a pure local
precondition check. -/
theorem same_identity_local_error (st : AppState) (u p : String) (sim : Bool)
    (outcome : FetchOutcome) (h : u = p) :
    (handleGenerateKey u p sim outcome).all (fun e => !e.isRequest) = true ∧
    (handleGenerateKeyApi u p sim outcome).all (fun e => !e.isRequest) = true ∧
    (replay st (handleGenerateKey u p sim outcome)).processStatus.session =
      ⟨.error, .error, "User and Peer cannot be the same."⟩ ∧
    (replay st (handleGenerateKey u p sim outcome)).decryptedPreview = "" ∧
    replay st (handleGenerateKeyApi u p sim outcome) =
      replay st (handleGenerateKey u p sim outcome) := by
  subst h
  simp [handleGenerateKey, handleGenerateKeyApi, sameUserEvents, replay,
    applyEvent, Event.isRequest]

theorem same_identity_local_error_witness :
    ("Alice" : String) = "Alice" ∧
    ((handleGenerateKey "Alice" "Alice" false (.networkError "boom")).all
        (fun e => !e.isRequest) = true ∧
      (replay initialAppState
          (handleGenerateKey "Alice" "Alice" false
            (.networkError "boom"))).processStatus.session =
        ⟨.error, .error, "User and Peer cannot be the same."⟩) :=
  ⟨rfl,
   (same_identity_local_error initialAppState "Alice" "Alice" false
        (.networkError "boom") rfl).1,
   (same_identity_local_error initialAppState "Alice" "Alice" false
        (.networkError "boom") rfl).2.2.1⟩

/-- C4: the `resetStatus` policy.  Starting the session pipeline resets all
three pipelines to the initial idle records and clears the decrypted preview
regardless of prior state (the full session handler also always ends with an
empty preview); starting the encrypt pipeline resets encrypt and decrypt to
the initial idle records while the session slot keeps a success status
exactly when it already had one. -/
theorem reset_policy (prev : ProcessStatus) (st : AppState) (u p : String)
    (sim : Bool) (outcome : FetchOutcome) :
    resetStatusFn "session" prev = INITIAL_PROCESS_STATUS ∧
    (replay st (resetStatusEvents "session")).decryptedPreview = "" ∧
    (replay st (handleGenerateKey u p sim outcome)).decryptedPreview = "" ∧
    (resetStatusFn "encrypt" prev).encrypt = INITIAL_PROCESS_STATUS.encrypt ∧
    (resetStatusFn "encrypt" prev).decrypt = INITIAL_PROCESS_STATUS.decrypt ∧
    ((resetStatusFn "encrypt" prev).session.status = .success ↔
      prev.session.status = .success) := by
  refine ⟨by simp [resetStatusFn], by simp [resetStatusEvents, replay, applyEvent],
    ?_, ?_, ?_, ?_⟩
  · by_cases h : u = p
    · simp [handleGenerateKey, sameUserEvents, replay, applyEvent, h]
    · rcases outcome with r | m
      · by_cases hok : r.ok <;> rcases hj : r.json with _ | j <;>
          simp [handleGenerateKey, sameUserEvents, resetStatusEvents, replay,
            applyEvent, h, hok, hj]
      · simp [handleGenerateKey, sameUserEvents, resetStatusEvents, replay,
          applyEvent, h]
  · by_cases hs : prev.session.status = .success <;>
      by_cases he : prev.encrypt.status = .success <;>
        simp [resetStatusFn, hs, he]
  · by_cases hs : prev.session.status = .success <;>
      by_cases he : prev.encrypt.status = .success <;>
        simp [resetStatusFn, hs, he]
  · by_cases hs : prev.session.status = .success <;>
      simp [resetStatusFn, hs, INITIAL_PROCESS_STATUS]

/-- C2: evaluation of both session-initiation handler variants on a 403
response carrying the JSON body with `detail = "Eve detected"`.  The status
is `eavesdropper` in both, as claimed; but while the direct-`fetch` variant
surfaces the `detail` text, the `api.js`-helper variant shows the fixed
fallback message, because `postFormJson`'s inner `throw` is caught by its
own `catch` block, which rethrows without the parsed body - contradicting
the handler's own comment that the thrown error carries `(status, body)`. -/
theorem session_403_detail_divergence :
    (replay initialAppState
        (handleGenerateKey "Alice" "Bob" true
          (.response eveResponse))).processStatus.session =
      ⟨.eavesdropper, .eavesdropper, "Eve detected"⟩ ∧
    (replay initialAppState
        (handleGenerateKeyApi "Alice" "Bob" true
          (.response eveResponse))).processStatus.session =
      ⟨.eavesdropper, .eavesdropper, "Attack detected. Session terminated."⟩ := by
  constructor <;> decide

/-- C5 counterexample: on a non-2xx response the object `postFormJson`
throws carries `status` and the raw body `text`, but no `message` field at
all - the normalized shape claimed (status plus message) is absent. -/
theorem postFormJson_no_message_field :
    postFormJson plainErrorResponse =
      ApiResult.thrown ⟨some 500, none, some "oops", none⟩ ∧
    ErrObj.messageF ⟨some 500, none, some "oops", none⟩ = none := by
  constructor <;> decide

/-- C5 (amended): when the body of a 2xx response fails to parse as JSON,
`postFormJson` falls back to returning the raw text; and every non-2xx
response makes it throw the normalized object `(status, text)` - carrying
the status and the raw body text, never an unnormalized exception, but also
never a `message` field. -/
theorem postFormJson_normalized_shape (r : HttpResponse) :
    (r.ok = true → r.text ≠ "" → r.json = none →
      postFormJson r = ApiResult.okText r.text) ∧
    (r.ok = false →
      postFormJson r = ApiResult.thrown ⟨some r.status, none, some r.text, none⟩) := by
  constructor
  · intro hok ht hj
    simp [postFormJson, hok, ht, hj]
  · intro hok
    by_cases ht : r.text = "" <;> rcases hj : r.json with _ | j <;>
      simp [postFormJson, hok, ht, hj]

theorem postFormJson_normalized_shape_witness :
    (HttpResponse.ok ⟨200, none, "not json", "e"⟩ = true ∧
      ("not json" : String) ≠ "" ∧
      postFormJson ⟨200, none, "not json", "e"⟩ = ApiResult.okText "not json") ∧
    (HttpResponse.ok plainErrorResponse = false ∧
      postFormJson plainErrorResponse =
        ApiResult.thrown ⟨some 500, none, some "oops", none⟩) :=
  ⟨⟨by decide, by decide,
    (postFormJson_normalized_shape ⟨200, none, "not json", "e"⟩).1
      (by decide) (by decide) rfl⟩,
   ⟨by decide,
    (postFormJson_normalized_shape plainErrorResponse).2 (by decide)⟩⟩

/-- C6 counterexample: the `config.js` normalization is not idempotent.
On `"http://x//api/v1"` one application leaves `"http://x/"` (stripping the
`/api/v1` suffix exposes a new trailing slash), and a second application
strips further to `"http://x"`. -/
theorem normalizeApiUrl_not_idempotent :
    normalizeApiUrl (normalizeApiUrl "http://x//api/v1") ≠
      normalizeApiUrl "http://x//api/v1" := by
  decide

theorem dropTrailingSlashes_eq_self (l : List Char)
    (h : lastIs '/' l = false) : dropTrailingSlashes l = l := by
  have h2 : l.reverse.dropWhile (fun c => c = '/') = l.reverse := by
    cases hr : l.reverse with
    | nil => simp
    | cons c rest =>
        unfold lastIs at h
        rw [hr] at h
        simp only [List.head?] at h
        simp only [List.dropWhile]
        simp at h
        simp [h]
  have h3 : l = l.reverse.reverse := (List.reverse_reverse l).symm
  unfold dropTrailingSlashes
  rw [h2, List.reverse_reverse]

/-- C6 (amended): the normalization is idempotent on every input whose
once-normalized form neither ends in a slash nor still ends,
case-insensitively, in `/api/v1`; it is not idempotent in general (see the
counterexample). -/
theorem normalizeApiUrl_idempotent_when_clean (s : String)
    (h1 : lastIs '/' (normalizeApiUrl s).data = false)
    (h2 : hasApiV1Suffix (normalizeApiUrl s).data = false) :
    normalizeApiUrl (normalizeApiUrl s) = normalizeApiUrl s := by
  show String.mk (stripApiV1 (dropTrailingSlashes (normalizeApiUrl s).data)) = _
  rw [dropTrailingSlashes_eq_self _ h1]
  unfold stripApiV1
  rw [if_neg (by simp [h2])]

theorem normalizeApiUrl_idempotent_when_clean_witness :
    lastIs '/' (normalizeApiUrl "https://example.com/api/v1/").data = false ∧
    hasApiV1Suffix (normalizeApiUrl "https://example.com/api/v1/").data = false ∧
    normalizeApiUrl (normalizeApiUrl "https://example.com/api/v1/") =
      normalizeApiUrl "https://example.com/api/v1/" :=
  ⟨by decide, by decide,
   normalizeApiUrl_idempotent_when_clean "https://example.com/api/v1/"
     (by decide) (by decide)⟩

/-- C7: the derived headline follows the fixed priority.  A session
eavesdropper wins outright; otherwise the first error in the fixed order
decrypt, encrypt, session; otherwise the first loading in the same order;
otherwise the success/idle default.  `getTopMessage` picks the same record's
message on the eavesdropper, error and loading ranks. -/
theorem headline_priority (p : ProcessStatus) :
    (p.session.status = .eavesdropper →
      getConnectionStatus p = ⟨.eavesdropper, p.session.message⟩ ∧
      getTopMessage p = p.session.message) ∧
    (p.session.status ≠ .eavesdropper → p.decrypt.status = .error →
      getConnectionStatus p = ⟨.error, p.decrypt.message⟩ ∧
      getTopMessage p = p.decrypt.message) ∧
    (p.session.status ≠ .eavesdropper → p.decrypt.status ≠ .error →
      p.encrypt.status = .error →
      getConnectionStatus p = ⟨.error, p.encrypt.message⟩ ∧
      getTopMessage p = p.encrypt.message) ∧
    (p.session.status ≠ .eavesdropper → p.decrypt.status ≠ .error →
      p.encrypt.status ≠ .error → p.session.status = .error →
      getConnectionStatus p = ⟨.error, p.session.message⟩ ∧
      getTopMessage p = p.session.message) ∧
    (p.session.status ≠ .eavesdropper → p.session.status ≠ .error →
      p.encrypt.status ≠ .error → p.decrypt.status ≠ .error →
      p.decrypt.status = .loading →
      getConnectionStatus p = ⟨.loading, p.decrypt.message⟩ ∧
      getTopMessage p = p.decrypt.message) ∧
    (p.session.status ≠ .eavesdropper → p.session.status ≠ .error →
      p.encrypt.status ≠ .error → p.decrypt.status ≠ .error →
      p.decrypt.status ≠ .loading → p.encrypt.status = .loading →
      getConnectionStatus p = ⟨.loading, p.encrypt.message⟩ ∧
      getTopMessage p = p.encrypt.message) ∧
    (p.session.status ≠ .eavesdropper → p.session.status ≠ .error →
      p.encrypt.status ≠ .error → p.decrypt.status ≠ .error →
      p.decrypt.status ≠ .loading → p.encrypt.status ≠ .loading →
      p.session.status = .loading →
      getConnectionStatus p = ⟨.loading, p.session.message⟩ ∧
      getTopMessage p = p.session.message) ∧
    (p.session.status ≠ .eavesdropper → p.session.status ≠ .error →
      p.encrypt.status ≠ .error → p.decrypt.status ≠ .error →
      p.session.status ≠ .loading → p.encrypt.status ≠ .loading →
      p.decrypt.status ≠ .loading →
      getConnectionStatus p = ⟨.success, "Secure Tunnel Active"⟩) := by
  refine ⟨?_, ?_, ?_, ?_, ?_, ?_, ?_, ?_⟩ <;> intros <;>
    simp_all [getConnectionStatus, getTopMessage]

theorem headline_priority_witness :
    eavesState.session.status = .eavesdropper ∧
    getConnectionStatus eavesState = ⟨.eavesdropper, "Attack detected."⟩ ∧
    getTopMessage eavesState = "Attack detected." :=
  ⟨by decide,
   ((headline_priority eavesState).1 (by decide)).1,
   ((headline_priority eavesState).1 (by decide)).2⟩

/-- C8: in every handler variant and for every outcome, whenever the trace
reaches its request event the replayed state already shows that handler's
pipeline as loading (the transition to loading is synchronous, before the
request leaves); and when a request is emitted, exactly one later event
writes that pipeline, leaving it in a terminal state.  (The session handlers
emit no request on the same-identity early return, hence the guard.) -/
theorem trace_shape_genKey (st : AppState) (u p : String) (sim : Bool)
    (outcome : FetchOutcome) :
    loadingAtRequests .session st (handleGenerateKey u p sim outcome) = true ∧
    (!(handleGenerateKey u p sim outcome).any Event.isRequest ||
      oneTerminalWriteAfterRequest .session
        (handleGenerateKey u p sim outcome)) = true := by
  by_cases h : u = p <;>
  rcases outcome with r | m <;>
  (try rcases hj : r.json with _ | j) <;>
  (try by_cases hok : r.ok) <;>
  (try by_cases h403 : r.status = 403) <;>
  simp [*, handleGenerateKey, sameUserEvents, resetStatusEvents,
    sessionLoadingRec, loadingAtRequests, oneTerminalWriteAfterRequest,
    afterRequest, writesPipeline, writesTerminalTo, Status.isTerminal,
    applyEvent, Event.isRequest, ProcessStatus.get, ProcessStatus.set]

theorem trace_shape_genKeyApi (st : AppState) (u p : String) (sim : Bool)
    (outcome : FetchOutcome) :
    loadingAtRequests .session st (handleGenerateKeyApi u p sim outcome) = true ∧
    (!(handleGenerateKeyApi u p sim outcome).any Event.isRequest ||
      oneTerminalWriteAfterRequest .session
        (handleGenerateKeyApi u p sim outcome)) = true := by
  by_cases h : u = p <;>
  rcases ha : apiCall outcome with j | t | e <;>
  (try by_cases h403 : e.statusF = some 403) <;>
  simp [*, handleGenerateKeyApi, sameUserEvents, resetStatusEvents,
    sessionLoadingRec, loadingAtRequests, oneTerminalWriteAfterRequest,
    afterRequest, writesPipeline, writesTerminalTo, Status.isTerminal,
    applyEvent, Event.isRequest, ProcessStatus.get, ProcessStatus.set]

theorem trace_shape_encrypt (st : AppState) (u p fn : String)
    (outcome : FetchOutcome) :
    loadingAtRequests .encrypt st (handleEncrypt u p fn outcome) = true ∧
    oneTerminalWriteAfterRequest .encrypt (handleEncrypt u p fn outcome) = true := by
  rcases outcome with r | m <;>
  (try rcases hj : r.json with _ | j) <;>
  (try by_cases hok : r.ok) <;>
  simp [*, handleEncrypt, resetStatusEvents, encryptLoadingRec,
    loadingAtRequests, oneTerminalWriteAfterRequest, afterRequest,
    writesPipeline, writesTerminalTo, Status.isTerminal, applyEvent,
    Event.isRequest, ProcessStatus.get, ProcessStatus.set]

theorem trace_shape_encryptApi (st : AppState) (u p fn : String)
    (outcome : FetchOutcome) :
    loadingAtRequests .encrypt st (handleEncryptApi u p fn outcome) = true ∧
    oneTerminalWriteAfterRequest .encrypt (handleEncryptApi u p fn outcome) = true := by
  rcases ha : apiCall outcome with j | t | e <;>
  simp [*, handleEncryptApi, resetStatusEvents, encryptLoadingRec,
    loadingAtRequests, oneTerminalWriteAfterRequest, afterRequest,
    writesPipeline, writesTerminalTo, Status.isTerminal, applyEvent,
    Event.isRequest, ProcessStatus.get, ProcessStatus.set]

theorem trace_shape_decrypt (st : AppState) (u p : String)
    (c : CryptoComponents) (outcome : FetchOutcome) :
    loadingAtRequests .decrypt st (handleDecryptPreview u p c outcome) = true ∧
    oneTerminalWriteAfterRequest .decrypt
      (handleDecryptPreview u p c outcome) = true := by
  rcases outcome with r | m <;>
  (try rcases hj : r.json with _ | j) <;>
  (try by_cases hok : r.ok) <;>
  simp [*, handleDecryptPreview, resetStatusEvents, decryptLoadingRec,
    loadingAtRequests, oneTerminalWriteAfterRequest, afterRequest,
    writesPipeline, writesTerminalTo, Status.isTerminal, applyEvent,
    Event.isRequest, ProcessStatus.get, ProcessStatus.set]

theorem trace_shape_decryptApi (st : AppState) (u p : String)
    (c : CryptoComponents) (outcome : FetchOutcome) :
    loadingAtRequests .decrypt st (handleDecryptPreviewApi u p c outcome) = true ∧
    oneTerminalWriteAfterRequest .decrypt
      (handleDecryptPreviewApi u p c outcome) = true := by
  rcases ha : apiCall outcome with j | t | e <;>
  simp [*, handleDecryptPreviewApi, resetStatusEvents, decryptLoadingRec,
    loadingAtRequests, oneTerminalWriteAfterRequest, afterRequest,
    writesPipeline, writesTerminalTo, Status.isTerminal, applyEvent,
    Event.isRequest, ProcessStatus.get, ProcessStatus.set]

/-- C8: in every handler variant and for every outcome, whenever the trace
reaches its request event the replayed state already shows that handler's
pipeline as loading (the transition to loading is synchronous, before the
request leaves); and when a request is emitted, exactly one later event
writes that pipeline, leaving it in a terminal state.  (The session handlers
emit no request on the same-identity early return, hence the guard.) -/
theorem loading_precedes_request_single_terminal
    (st : AppState) (u p fn : String) (sim : Bool) (c : CryptoComponents)
    (outcome : FetchOutcome) :
    (loadingAtRequests .session st (handleGenerateKey u p sim outcome) = true ∧
      (!(handleGenerateKey u p sim outcome).any Event.isRequest ||
        oneTerminalWriteAfterRequest .session
          (handleGenerateKey u p sim outcome)) = true) ∧
    (loadingAtRequests .session st (handleGenerateKeyApi u p sim outcome) = true ∧
      (!(handleGenerateKeyApi u p sim outcome).any Event.isRequest ||
        oneTerminalWriteAfterRequest .session
          (handleGenerateKeyApi u p sim outcome)) = true) ∧
    (loadingAtRequests .encrypt st (handleEncrypt u p fn outcome) = true ∧
      oneTerminalWriteAfterRequest .encrypt (handleEncrypt u p fn outcome) = true) ∧
    (loadingAtRequests .encrypt st (handleEncryptApi u p fn outcome) = true ∧
      oneTerminalWriteAfterRequest .encrypt (handleEncryptApi u p fn outcome) = true) ∧
    (loadingAtRequests .decrypt st (handleDecryptPreview u p c outcome) = true ∧
      oneTerminalWriteAfterRequest .decrypt
        (handleDecryptPreview u p c outcome) = true) ∧
    (loadingAtRequests .decrypt st (handleDecryptPreviewApi u p c outcome) = true ∧
      oneTerminalWriteAfterRequest .decrypt
        (handleDecryptPreviewApi u p c outcome) = true) :=
  ⟨trace_shape_genKey st u p sim outcome,
   trace_shape_genKeyApi st u p sim outcome,
   trace_shape_encrypt st u p fn outcome,
   trace_shape_encryptApi st u p fn outcome,
   trace_shape_decrypt st u p c outcome,
   trace_shape_decryptApi st u p c outcome⟩

/-- C9: both decrypt-preview handler variants issue exactly one request,
whose form carries the `nonce`, `tag` and `ciphertext` strings of the given
triple verbatim - the fields looked up in the emitted form are exactly the
strings of the triple, with no reformatting.  In particular any triple
produced by the encrypt operation can be passed through unchanged. -/
theorem decrypt_preview_forwards_verbatim (u p : String)
    (c : CryptoComponents) (outcome : FetchOutcome) :
    requestForms (handleDecryptPreview u p c outcome) =
      [decryptForm u p c.nonce c.tag c.ciphertext] ∧
    requestForms (handleDecryptPreviewApi u p c outcome) =
      [decryptForm u p c.nonce c.tag c.ciphertext] ∧
    ("nonce", c.nonce) ∈ decryptForm u p c.nonce c.tag c.ciphertext ∧
    ("tag", c.tag) ∈ decryptForm u p c.nonce c.tag c.ciphertext ∧
    ("ciphertext", c.ciphertext) ∈ decryptForm u p c.nonce c.tag c.ciphertext := by
  refine ⟨?_, ?_, by simp [decryptForm], by simp [decryptForm],
    by simp [decryptForm]⟩
  · rcases outcome with r | m <;>
    (try rcases hj : r.json with _ | j) <;>
    (try by_cases hok : r.ok) <;>
    simp [*, handleDecryptPreview, resetStatusEvents, requestForms]
  · rcases ha : apiCall outcome with j | t | e <;>
    simp [*, handleDecryptPreviewApi, resetStatusEvents, requestForms]

/-- C10: whenever a decrypt-preview invocation ends with the decrypt
pipeline in the error state (either handler variant), the decrypted preview
is not left cleared: it equals `Error: ` followed by the very message stored
in the decrypt pipeline's record. -/
theorem decrypt_error_preview (st : AppState) (u p : String)
    (c : CryptoComponents) (outcome : FetchOutcome) :
    ((replay st (handleDecryptPreview u p c outcome)).processStatus.decrypt.status =
        .error →
      (replay st (handleDecryptPreview u p c outcome)).decryptedPreview =
        "Error: " ++
          (replay st (handleDecryptPreview u p c outcome)).processStatus.decrypt.message) ∧
    ((replay st (handleDecryptPreviewApi u p c outcome)).processStatus.decrypt.status =
        .error →
      (replay st (handleDecryptPreviewApi u p c outcome)).decryptedPreview =
        "Error: " ++
          (replay st (handleDecryptPreviewApi u p c outcome)).processStatus.decrypt.message) := by
  constructor
  · rcases outcome with r | m <;>
    (try rcases hj : r.json with _ | j) <;>
    (try by_cases hok : r.ok) <;>
    simp [*, handleDecryptPreview, resetStatusEvents, decryptLoadingRec,
      replay, applyEvent, ProcessStatus.get, ProcessStatus.set]
  · rcases ha : apiCall outcome with j | t | e <;>
    simp [*, handleDecryptPreviewApi, resetStatusEvents, decryptLoadingRec,
      replay, applyEvent, ProcessStatus.get, ProcessStatus.set]

theorem decrypt_error_preview_witness :
    (replay initialAppState
        (handleDecryptPreview "Alice" "Bob" ⟨"n1", "t1", "c1"⟩
          (.response plainErrorResponse))).processStatus.decrypt.status = .error ∧
    (replay initialAppState
        (handleDecryptPreview "Alice" "Bob" ⟨"n1", "t1", "c1"⟩
          (.response plainErrorResponse))).decryptedPreview =
      "Error: " ++
        (replay initialAppState
            (handleDecryptPreview "Alice" "Bob" ⟨"n1", "t1", "c1"⟩
              (.response plainErrorResponse))).processStatus.decrypt.message :=
  ⟨by decide,
   (decrypt_error_preview initialAppState "Alice" "Bob" ⟨"n1", "t1", "c1"⟩
      (.response plainErrorResponse)).1 (by decide)⟩
